import Mathlib

/-!
Verification of the Weather_Upload_RPi packet-decoding and link-health logic.

The development shallowly embeds `decodeRawData`, the serial-recovery part of
the main loop of `Weather_Station.py`, and `getDailyRain` of `WU_download.py`.
Python numbers are modelled as rationals (`ℚ`), machine integers as `ℤ`/`ℕ`,
byte strings as `List ℕ`, and Python strings as `List Char`.

The modules `WU_decodeData` and `weatherData_cls` are imported by
`Weather_Station.py` but their sources are not part of this repository
snapshot.  Their functions are therefore abstracted as parameters
(`WUDecodeData`, `WeatherCls`), and concrete instances modelled from the
specification are provided for witnesses and counterexamples.
-/

/-! ## Constants from Weather_Station.py -/

def ISS_STATION_ID : ℤ := 1

def ISS_WIND_SPEED : ℕ := 0x1
def ISS_CAP_VOLTS : ℕ := 0x2
def ISS_UV_INDEX : ℕ := 0x4
def ISS_RAIN_SECONDS : ℕ := 0x5
def ISS_SOLAR_RAD : ℕ := 0x6
def ISS_OUT_TEMP : ℕ := 0x8
def ISS_WIND_GUST : ℕ := 0x9
def ISS_HUMIDITY : ℕ := 0xA
def ISS_RAIN_COUNT : ℕ := 0xE

def CRC_FAIL_THRESHOLD : ℕ := 12
def CRC_RESET_COOLDOWN : ℚ := 60

/-- Byte access `packet[i]` (the caller guarantees 8 bytes; out-of-range
reads default to 0 in the model). -/
def nth (p : List ℕ) (i : ℕ) : ℕ := p.getD i 0

/-! ## Weather state (the `suntec` object of class `weatherStation`) -/

/-- The numeric fields of the `weatherStation` object mutated or read by
`decodeRawData`.  The class source (`weatherData_cls.py`) is not in the
repository snapshot; the field list is taken from the uses in
`Weather_Station.py` and from the spec's WeatherState description. -/
structure weatherStation where
  windSpeed : ℚ
  windDir : ℚ
  windGust : ℚ
  outsideTemp : ℚ
  humidity : ℚ
  pressure : ℚ
  solar : ℚ
  uvIndex : ℚ
  capacitorVolts : ℚ
  rainRate : ℚ
  rainToday : ℚ
  dewPoint : ℚ
  windChill : ℚ
  avgAcc : ℚ
  deriving Repr, DecidableEq

/-- The state read and written by `decodeRawData`: the `suntec` object plus
the module-level globals `g_rainCounterOld` and `g_rainCntDataPts`. -/
structure DecodeState where
  suntec : weatherStation
  rainCounterOld : ℤ
  rainCntDataPts : ℕ
  deriving Repr, DecidableEq

/-! ## The missing modules, abstracted -/

/-- The decoding functions of the `WU_decodeData` module (not in the
repository snapshot): each takes the raw 8-byte packet.  Modelled from the
spec: per §4.1 each decoder is a pure function of the packet; wind speed,
wind direction and the tag payloads can decode to invalid (negative /
out-of-range) values, which `decodeRawData` rejects. -/
structure WUDecodeData where
  crc16_ccitt : List ℕ → Bool
  stationID : List ℕ → ℤ
  windSpeed : List ℕ → ℚ
  windDirection : List ℕ → ℚ
  rainCounter : List ℕ → ℤ
  rainRate : List ℕ → ℤ
  temperature : List ℕ → ℚ
  windGusts : List ℕ → ℚ
  humidity : List ℕ → ℚ
  capVoltage : List ℕ → ℚ
  solarRadiation : List ℕ → ℚ
  uvIndex : List ℕ → ℚ

/-- The methods of the `weatherStation` class used by `decodeRawData`
(`weatherData_cls.py` is not in the repository snapshot).  Modelled from the
spec: `avgWindDir` updates the circular-mean accumulator from a new
direction, `calcWindChill` is a function of temperature and wind speed,
`calcDewPoint` of temperature and humidity, and the `got...Data` predicates
test the field against the "no data yet" sentinel. -/
structure WeatherCls where
  avgWindDir : ℚ → ℚ → ℚ
  calcWindChill : ℚ → ℚ → ℚ
  calcDewPoint : ℚ → ℚ → ℚ
  gotHumidityData : ℚ → Bool
  gotTemperatureData : ℚ → Bool

/-! ## Result messages

`decodeRawData` returns `(status, message)` where the messages are the
string literals of the source; interpolated values are carried as payloads
and rendered by `renderMsg` below. -/

inductive Msg where
  | invalidCRC
  | wrongStation (expected got : ℤ)
  | windSpeedErr (v : ℚ) (p : List ℕ)
  | windDirErr (v : ℚ) (p : List ℕ)
  | invalidRainCounter
  | rainCountOK
  | rainRateOK
  | invalidRainSeconds
  | tempOK
  | invalidTemperature
  | windGustOK
  | invalidWindGust
  | humidityOK
  | invalidHumidity
  | capVoltsOK
  | invalidCapVolts
  | solarOK
  | invalidSolar
  | uvOK
  | invalidUV
  | unhandled (tag : ℕ)
  deriving Repr, DecidableEq

/-! ## Rendering of interpolated values (Python `str.format`)

Numbers render as sign-and-digits strings, byte strings as Python's
`bytes.__repr__`.  For rationals the decimal rendering of a Python float is
modelled by a digit string (numerator, and denominator when not 1); the only
property the proofs use is that number renderings contain no letters, which
holds for Python's renderings as well. -/

def digChar : ℕ → Char
  | 0 => '0' | 1 => '1' | 2 => '2' | 3 => '3' | 4 => '4'
  | 5 => '5' | 6 => '6' | 7 => '7' | 8 => '8' | _ => '9'

def digitsAux : ℕ → ℕ → List Char → List Char
  | 0, _, acc => acc
  | fuel + 1, n, acc =>
    if n < 10 then digChar n :: acc
    else digitsAux fuel (n / 10) (digChar (n % 10) :: acc)

def natChars (n : ℕ) : List Char := digitsAux (n + 1) n []

def renderInt (z : ℤ) : List Char :=
  if z < 0 then '-' :: natChars z.natAbs else natChars z.natAbs

def renderQ (q : ℚ) : List Char :=
  if q.den = 1 then renderInt q.num
  else renderInt q.num ++ '/' :: natChars q.den

def hexChar : ℕ → Char
  | 0 => '0' | 1 => '1' | 2 => '2' | 3 => '3' | 4 => '4'
  | 5 => '5' | 6 => '6' | 7 => '7' | 8 => '8' | 9 => '9'
  | 10 => 'A' | 11 => 'B' | 12 => 'C' | 13 => 'D' | 14 => 'E' | _ => 'F'

def hexAux : ℕ → ℕ → List Char → List Char
  | 0, _, acc => acc
  | fuel + 1, n, acc =>
    if n < 16 then hexChar n :: acc
    else hexAux fuel (n / 16) (hexChar (n % 16) :: acc)

/-- Python `"{:X}".format` of a nonnegative integer. -/
def hexChars (n : ℕ) : List Char := hexAux (n + 1) n []

def hexCharLower : ℕ → Char
  | 0 => '0' | 1 => '1' | 2 => '2' | 3 => '3' | 4 => '4'
  | 5 => '5' | 6 => '6' | 7 => '7' | 8 => '8' | 9 => '9'
  | 10 => 'a' | 11 => 'b' | 12 => 'c' | 13 => 'd' | 14 => 'e' | _ => 'f'

def bsChar : Char := Char.ofNat 92

def quoteChar : Char := Char.ofNat 39

/-- One byte of Python's `bytes.__repr__`: backslash, quote, tab, newline and
carriage return are escaped, printable ASCII is shown literally, everything
else as a lowercase hex escape. -/
def renderByte (b : ℕ) : List Char :=
  if b = 92 then [bsChar, bsChar]
  else if b = 39 then [bsChar, quoteChar]
  else if b = 9 then [bsChar, 't']
  else if b = 10 then [bsChar, 'n']
  else if b = 13 then [bsChar, 'r']
  else if 32 ≤ b ∧ b ≤ 126 then [Char.ofNat b]
  else [bsChar, 'x', hexCharLower (b / 16 % 16), hexCharLower (b % 16)]

/-- Python `str(bytes)`, e.g. `b'ab\x00'`. -/
def renderBytes (p : List ℕ) : List Char :=
  'b' :: quoteChar :: (p.map renderByte).flatten ++ [quoteChar]

/-- The message strings of `decodeRawData`, exactly as in the source. -/
def renderMsg : Msg → List Char
  | .invalidCRC => "Invalid CRC".data
  | .wrongStation e g =>
      "Wrong station ID. Expected ".data ++ renderInt e ++ " but got ".data ++ renderInt g
  | .windSpeedErr v p =>
      "Error extracting wind speed from packet. Got ".data ++ renderQ v ++
        " from ".data ++ renderBytes p
  | .windDirErr v p =>
      "Error extracting wind direction from packet. Got ".data ++ renderQ v ++
        " from ".data ++ renderBytes p
  | .invalidRainCounter => "Invalid rain counter value".data
  | .rainCountOK => "Rain count data processed".data
  | .rainRateOK => "Rain rate data processed".data
  | .invalidRainSeconds => "Invalid rain seconds".data
  | .tempOK => "Temperature data processed".data
  | .invalidTemperature => "Invalid temperature".data
  | .windGustOK => "Wind gust data processed".data
  | .invalidWindGust => "Invalid wind gust".data
  | .humidityOK => "Humidity data processed".data
  | .invalidHumidity => "Invalid humidity".data
  | .capVoltsOK => "Capacitor voltage data processed".data
  | .invalidCapVolts => "Invalid cap volts".data
  | .solarOK => "Solar radiation data processed".data
  | .invalidSolar => "Invalid solar radiation".data
  | .uvOK => "UV index data processed".data
  | .invalidUV => "Invalid UV index".data
  | .unhandled tag => "Unhandled data type: 0x".data ++ hexChars tag

/-- Does the list start with the three characters `C`, `R`, `C`? -/
def startsWithCRC (l : List Char) : Bool :=
  match l with
  | a :: b :: c :: _ => (a == 'C') && (b == 'R') && (c == 'C')
  | _ => false

/-- Python's `"CRC" in s` substring test, on the character list of `s`. -/
def containsCRCsub : List Char → Bool
  | [] => false
  | a :: rest => startsWithCRC (a :: rest) || containsCRCsub rest

/-- The main loop's CRC-failure classification of a decode message
(`"CRC" in decodeMessage or "Invalid CRC" in decodeMessage`; the second
disjunct is subsumed by the first). -/
def crcMsgCheck (m : Msg) : Bool := containsCRCsub (renderMsg m)

/-! ## decodeRawData (Weather_Station.py, lines 93-250) -/

def setWindSpeed (st : DecodeState) (v : ℚ) : DecodeState :=
  { st with suntec := { st.suntec with windSpeed := v } }

/-- Wind speed and direction updates performed before tag dispatch:
`suntec.windSpeed = newWindSpeed`, `suntec.windDir = newWindDir`,
`suntec.avgWindDir(newWindDir)`. -/
def applyWind (M : WeatherCls) (st : DecodeState) (ws wd : ℚ) : DecodeState :=
  { st with suntec := { st.suntec with
      windSpeed := ws
      windDir := wd
      avgAcc := M.avgWindDir st.suntec.avgAcc wd } }

def rainDelta (old c : ℤ) : ℤ := if c < old then (128 - old) + c else c - old

/-- `if (g_rainCntDataPts == 1): g_rainCounterOld = rainCounterNew`. -/
def rainRecord (st : DecodeState) (c : ℤ) : DecodeState :=
  if st.rainCntDataPts = 1 then { st with rainCounterOld := c } else st

/-- `if (g_rainCntDataPts >= 2) and (g_rainCounterOld != rainCounterNew): ...`. -/
def rainAccum (st : DecodeState) (c : ℤ) : DecodeState :=
  if 2 ≤ st.rainCntDataPts ∧ st.rainCounterOld ≠ c then
    { st with
      suntec := { st.suntec with
        rainToday := st.suntec.rainToday + ((rainDelta st.rainCounterOld c : ℤ) : ℚ) / 100 }
      rainCounterOld := c }
  else st

/-- `g_rainCntDataPts += 1`. -/
def bumpPts (st : DecodeState) : DecodeState :=
  { st with rainCntDataPts := st.rainCntDataPts + 1 }

def rainCountBranch (D : WUDecodeData) (st : DecodeState) (packet : List ℕ) :
    DecodeState × Bool × Msg :=
  if D.rainCounter packet < 0 ∨ 127 < D.rainCounter packet then
    (st, false, Msg.invalidRainCounter)
  else
    (bumpPts (rainAccum (rainRecord st (D.rainCounter packet)) (D.rainCounter packet)),
      true, Msg.rainCountOK)

def rainSecondsBranch (D : WUDecodeData) (st : DecodeState) (packet : List ℕ) :
    DecodeState × Bool × Msg :=
  if 0 < D.rainRate packet then
    if D.rainRate packet < 60 * 15 then
      ({ st with suntec := { st.suntec with
          rainRate := (0.01 * 3600) / ((D.rainRate packet : ℤ) : ℚ) } },
        true, Msg.rainRateOK)
    else
      ({ st with suntec := { st.suntec with rainRate := 0 } }, true, Msg.rainRateOK)
  else (st, false, Msg.invalidRainSeconds)

/-- `newDewPoint = suntec.calcDewPoint()` guarded by a `got...Data` test;
the result is stored in `suntec.dewPoint` (the `<= -100` check in the
source only prints a warning). -/
def dewPointUpd (M : WeatherCls) (st : DecodeState) (cond : Bool) : DecodeState :=
  if cond then
    { st with suntec := { st.suntec with
        dewPoint := M.calcDewPoint st.suntec.outsideTemp st.suntec.humidity } }
  else st

def tempBranch (D : WUDecodeData) (M : WeatherCls) (st : DecodeState) (packet : List ℕ) :
    DecodeState × Bool × Msg :=
  if -100 < D.temperature packet then
    (dewPointUpd M
      { st with suntec := { st.suntec with
          outsideTemp := D.temperature packet
          windChill := M.calcWindChill (D.temperature packet) st.suntec.windSpeed } }
      (M.gotHumidityData st.suntec.humidity),
      true, Msg.tempOK)
  else (st, false, Msg.invalidTemperature)

def humidityBranch (D : WUDecodeData) (M : WeatherCls) (st : DecodeState) (packet : List ℕ) :
    DecodeState × Bool × Msg :=
  if 0 < D.humidity packet then
    (dewPointUpd M
      { st with suntec := { st.suntec with humidity := D.humidity packet } }
      (M.gotTemperatureData st.suntec.outsideTemp),
      true, Msg.humidityOK)
  else (st, false, Msg.invalidHumidity)

def windGustBranch (D : WUDecodeData) (st : DecodeState) (packet : List ℕ) :
    DecodeState × Bool × Msg :=
  if 0 ≤ D.windGusts packet then
    ({ st with suntec := { st.suntec with windGust := D.windGusts packet } },
      true, Msg.windGustOK)
  else (st, false, Msg.invalidWindGust)

def capVoltsBranch (D : WUDecodeData) (st : DecodeState) (packet : List ℕ) :
    DecodeState × Bool × Msg :=
  if 0 ≤ D.capVoltage packet then
    ({ st with suntec := { st.suntec with capacitorVolts := D.capVoltage packet } },
      true, Msg.capVoltsOK)
  else
    ({ st with suntec := { st.suntec with capacitorVolts := -1 } },
      false, Msg.invalidCapVolts)

def solarBranch (D : WUDecodeData) (st : DecodeState) (packet : List ℕ) :
    DecodeState × Bool × Msg :=
  if 0 ≤ D.solarRadiation packet then
    ({ st with suntec := { st.suntec with solar := D.solarRadiation packet } },
      true, Msg.solarOK)
  else (st, false, Msg.invalidSolar)

def uvBranch (D : WUDecodeData) (st : DecodeState) (packet : List ℕ) :
    DecodeState × Bool × Msg :=
  if 0 ≤ D.uvIndex packet then
    ({ st with suntec := { st.suntec with uvIndex := D.uvIndex packet } },
      true, Msg.uvOK)
  else (st, false, Msg.invalidUV)

/-- The `dataSent` dispatch (`elif` chain of `decodeRawData`). -/
def dispatchData (D : WUDecodeData) (M : WeatherCls) (st : DecodeState) (packet : List ℕ) :
    DecodeState × Bool × Msg :=
  if nth packet 0 / 16 = ISS_RAIN_COUNT then rainCountBranch D st packet
  else if nth packet 0 / 16 = ISS_RAIN_SECONDS then rainSecondsBranch D st packet
  else if nth packet 0 / 16 = ISS_OUT_TEMP then tempBranch D M st packet
  else if nth packet 0 / 16 = ISS_WIND_GUST then windGustBranch D st packet
  else if nth packet 0 / 16 = ISS_HUMIDITY then humidityBranch D M st packet
  else if nth packet 0 / 16 = ISS_CAP_VOLTS then capVoltsBranch D st packet
  else if nth packet 0 / 16 = ISS_SOLAR_RAD then solarBranch D st packet
  else if nth packet 0 / 16 = ISS_UV_INDEX then uvBranch D st packet
  else (st, false, Msg.unhandled (nth packet 0 / 16))

/-- `decodeRawData(packet)` of `Weather_Station.py`: CRC gate, station-ID
gate, unconditional wind speed / wind direction decode (the wind-speed
failure path sets `suntec.windSpeed = 0`), then tag dispatch.  Returns the
updated state together with the `(status, message)` pair of the source. -/
def decodeRawData (D : WUDecodeData) (M : WeatherCls) (st : DecodeState)
    (packet : List ℕ) : DecodeState × Bool × Msg :=
  if D.crc16_ccitt packet = false then (st, false, Msg.invalidCRC)
  else if D.stationID packet ≠ ISS_STATION_ID then
    (st, false, Msg.wrongStation ISS_STATION_ID (D.stationID packet))
  else if D.windSpeed packet < 0 then
    (setWindSpeed st 0, false, Msg.windSpeedErr (D.windSpeed packet) packet)
  else if D.windDirection packet < 0 then
    (setWindSpeed st (D.windSpeed packet), false,
      Msg.windDirErr (D.windDirection packet) packet)
  else
    dispatchData D M (applyWind M st (D.windSpeed packet) (D.windDirection packet)) packet

/-! ## Serial-recovery logic of the main loop (Weather_Station.py, lines 576-609) -/

/-- The globals `g_crc_fail_count` and `g_crc_last_reset`. -/
structure LinkState where
  g_crc_fail_count : ℕ
  g_crc_last_reset : ℚ
  deriving Repr, DecidableEq

/-- One pass of the main loop's decode-status handling: on success the
consecutive CRC-failure counter resets; on failure it increments when the
message passes the `"CRC" in decodeMessage` test and resets otherwise; when
the updated counter reaches `CRC_FAIL_THRESHOLD` and more than
`CRC_RESET_COOLDOWN` seconds have passed since `g_crc_last_reset`, a
flush-and-reopen recovery is attempted (second component `true`), the
counter resets and the reset timestamp is stamped with the current time. -/
def mainLoopStep (ls : LinkState) (decodeStatus : Bool) (decodeMessage : Msg)
    (now : ℚ) : LinkState × Bool :=
  if decodeStatus then ({ ls with g_crc_fail_count := 0 }, false)
  else
    let cnt := if crcMsgCheck decodeMessage then ls.g_crc_fail_count + 1 else 0
    if CRC_FAIL_THRESHOLD ≤ cnt ∧ CRC_RESET_COOLDOWN < now - ls.g_crc_last_reset then
      (⟨0, now⟩, true)
    else ({ ls with g_crc_fail_count := cnt }, false)

/-- Iterated main-loop passes over a list of `(decodeStatus, message, time)`
events; returns the final link state and the list of recovery decisions. -/
def runLink : LinkState → List (Bool × Msg × ℚ) → LinkState × List Bool
  | ls, [] => (ls, [])
  | ls, (s, m, t) :: rest =>
    let r := mainLoopStep ls s m t
    let rr := runLink r.1 rest
    (rr.1, r.2 :: rr.2)

/-! ## getDailyRain (WU_download.py) and the startup use of its result -/

/-- A Python runtime value, as far as the startup code needs: a number, a
string, or a list. -/
inductive PyVal where
  | num (q : ℚ)
  | str (s : List Char)
  | listV (xs : List PyVal)
  deriving Repr

/-- Python subscription `v[i]`: defined for lists (and strings); numbers are
not subscriptable, which raises `TypeError` (modelled as `none`). -/
def pyIndex : PyVal → ℕ → Option PyVal
  | PyVal.listV xs, i => xs.get? i
  | PyVal.str s, i => (s.get? i).map (fun c => PyVal.str [c])
  | PyVal.num _, _ => none

def ERR_INVALID_DATA : ℚ := -102

/-- The observable shape of the Weather Underground HTTP response:
`len(response)`, whether `precip_today_in` parses as a number
(`isNumber`), and its parsed value. -/
structure WUResponse where
  length : ℕ
  precipIsNumber : Bool
  precipValue : ℚ

/-- `getDailyRain()` of `WU_download.py`: returns the parsed
`precip_today_in` float when the response is valid, and the bare scalar
`ERR_INVALID_DATA = -102` otherwise. -/
def getDailyRain (resp : WUResponse) : PyVal :=
  if 1 < resp.length then
    if resp.precipIsNumber then PyVal.num resp.precipValue
    else PyVal.num ERR_INVALID_DATA
  else PyVal.num ERR_INVALID_DATA

/-- The startup code of `Weather_Station.py` (line 515): evaluates
`newRainToday[0] >= 0` on the value returned by `getDailyRain()`.  `none`
models a raised `TypeError`. -/
def startupRainCheck (resp : WUResponse) : Option Bool :=
  match pyIndex (getDailyRain resp) 0 with
  | some (PyVal.num q) => some (0 ≤ q)
  | _ => none

/-! ## Wind-direction scaling (printWeatherDataTable, line 288) -/

/-- `windDirNow = (g_rawDataNew[2] * 1.40625) + 0.3`. -/
def windDirNow (b2 : ℕ) : ℚ := (b2 : ℚ) * 1.40625 + 0.3

/-! ## Spec-modelled concrete instances (for witnesses and counterexamples) -/

/-- Modelled from the spec: CRC-16/CCITT over the whole 8-byte frame
(polynomial 0x1021, initial value 0); one shift-and-conditionally-xor
round. -/
def crcStep (c : ℕ) : ℕ :=
  if 32768 ≤ c then ((c * 2) % 65536) ^^^ 4129 else (c * 2) % 65536

/-- Modelled from the spec: fold one byte into the running CRC. -/
def crcByte (c b : ℕ) : ℕ :=
  crcStep (crcStep (crcStep (crcStep (crcStep (crcStep (crcStep (crcStep
    (c ^^^ ((b % 256) * 256)))))))))

/-- Modelled from the spec: the CRC residue of a byte list. -/
def crcList (p : List ℕ) : ℕ := p.foldl crcByte 0

/-- Modelled from the spec: a frame is valid when the checksum residue over
the full frame, trailer included, is zero (§4.1 item 1). -/
def crc16_spec (p : List ℕ) : Bool := crcList p == 0

/-- Modelled from the spec: a concrete `WU_decodeData` instance following
the wire format of §6 — byte 0's low nibble with byte 1 gives wind speed,
byte 2 scaled by 1.40625 plus 0.3 gives wind direction, bytes 3-4 carry the
tag payload.  The spec leaves the station identifier's placement open; it is
modelled as the low three bits of byte 0 plus one. -/
def specD : WUDecodeData where
  crc16_ccitt := crc16_spec
  stationID := fun p => (nth p 0 % 8 : ℕ) + 1
  windSpeed := fun p => ((nth p 0 % 16) * 256 + nth p 1 : ℕ)
  windDirection := fun p => windDirNow (nth p 2)
  rainCounter := fun p => (nth p 3 : ℤ)
  rainRate := fun p => (nth p 3 * 256 + nth p 4 : ℕ)
  temperature := fun p => ((nth p 3 * 256 + nth p 4 : ℕ) : ℚ) / 10
  windGusts := fun p => (nth p 3 : ℚ)
  humidity := fun p => (nth p 3 : ℚ)
  capVoltage := fun p => ((nth p 3 : ℚ)) / 100
  solarRadiation := fun p => (nth p 3 : ℚ)
  uvIndex := fun p => ((nth p 3 : ℚ)) / 10

/-- Modelled from the spec: a concrete `weatherStation`-methods instance.
The spec leaves the circular-mean and Magnus/wind-chill formulas open (§9);
any deterministic choice is admissible, and simple representatives are
used.  The `got...Data` predicates test against the -100 sentinel
(`Weather_Station.py` line 509). -/
def specM : WeatherCls where
  avgWindDir := fun acc d => (acc + d) / 2
  calcWindChill := fun t _ws => t
  calcDewPoint := fun t h => t - (100 - h) / 5
  gotHumidityData := fun h => decide (-100 < h)
  gotTemperatureData := fun t => decide (-100 < t)

/-- Modelled from the spec: a decoder instance identical to `specD` except
that wind-speed extraction fails (returns -1); per §4.1 item 3 an
out-of-range wind speed is a possible decoder outcome. -/
def Dneg : WUDecodeData := { specD with windSpeed := fun _ => -1 }

/-- The `suntec` state at entry to the main loop: the class sets the fields
to the -100 "no data yet" sentinel (line 509), then startup sets
`windGust = 0.0` and `rainToday = 0.0` (lines 510-511); the globals
`g_rainCounterOld` and `g_rainCntDataPts` start at 0 (lines 535-536). -/
def initState : DecodeState where
  suntec :=
    { windSpeed := -100, windDir := -100, windGust := 0, outsideTemp := -100,
      humidity := -100, pressure := -100, solar := -100, uvIndex := -100,
      capacitorVolts := -100, rainRate := -100, rainToday := 0,
      dewPoint := -100, windChill := -100, avgAcc := 0 }
  rainCounterOld := 0
  rainCntDataPts := 0

/-! ## Concrete packets (trailer bytes give CRC residue 0 under `crc16_spec`) -/

/-- Valid frame, station 1, unhandled tag 0x3. -/
def p3c : List ℕ := [48, 5, 10, 0, 0, 0, 100, 112]

/-- Valid frame, station 1, RainCounter tag, counter value 50. -/
def p50 : List ℕ := [224, 0, 0, 50, 0, 0, 32, 253]

/-- Valid frame, station 1, RainCounter tag, counter value 53. -/
def p53 : List ℕ := [224, 0, 0, 53, 0, 0, 165, 109]

/-- Valid frame, station 1, RainCounter tag, counter value 57. -/
def p57 : List ℕ := [224, 0, 0, 57, 0, 0, 208, 12]

/-- Valid frame, station 1, RainCounter tag, counter value 2. -/
def p2rc : List ℕ := [224, 0, 0, 2, 0, 0, 229, 88]

/-- Valid frame, station 1, RainCounter tag, counter value 12. -/
def p12rc : List ℕ := [224, 0, 0, 12, 0, 0, 254, 89]

/-- Valid frame, station 1, RainSeconds tag, 10 seconds. -/
def prs10 : List ℕ := [80, 0, 0, 0, 10, 0, 159, 95]

/-- Valid frame, station 1, RainSeconds tag, 1000 seconds. -/
def prs1000 : List ℕ := [80, 0, 0, 3, 232, 0, 176, 223]

/-- Valid frame, station 1, RainSeconds tag, 0 seconds (decodes invalid). -/
def prs0 : List ℕ := [80, 0, 0, 0, 0, 0, 112, 148]

/-- Valid frame, station 1, OutsideTemp tag, payload 300 (30.0 degrees). -/
def ptemp : List ℕ := [128, 0, 0, 1, 44, 0, 160, 155]

/-- Valid frame, station 1, whose payload bytes 1-3 are the ASCII characters
`C`, `R`, `C`. -/
def pW : List ℕ := [48, 67, 82, 67, 0, 0, 12, 152]

/-- A frame with nonzero CRC residue (rejected by the checksum gate). -/
def pBad : List ℕ := [1, 2, 3, 4, 5, 6, 7, 8]

/-- The instantaneous weather fields (wind speed, wind direction, wind gust,
outside temperature, humidity, solar, UV index, capacitor volts, rain rate)
as a tuple, for overwrite-idempotence statements. -/
def instFields (st : DecodeState) : ℚ × ℚ × ℚ × ℚ × ℚ × ℚ × ℚ × ℚ × ℚ :=
  (st.suntec.windSpeed, st.suntec.windDir, st.suntec.windGust,
   st.suntec.outsideTemp, st.suntec.humidity, st.suntec.solar,
   st.suntec.uvIndex, st.suntec.capacitorVolts, st.suntec.rainRate)

/-! ## Helper lemmas: the "CRC" substring scanner -/

theorem startsWithCRC_shape (l : List Char) (h : startsWithCRC l = true) :
    ∃ t, l = 'C' :: 'R' :: 'C' :: t := by
  match l with
  | [] => simp [startsWithCRC] at h
  | [a] => simp [startsWithCRC] at h
  | [a, b] => simp [startsWithCRC] at h
  | a :: b :: c :: t =>
    simp only [startsWithCRC, Bool.and_eq_true, beq_iff_eq] at h
    exact ⟨t, by rw [h.1.1, h.1.2, h.2]⟩

theorem containsCRCsub_noC (l : List Char) (h : ∀ c ∈ l, c ≠ 'C') :
    containsCRCsub l = false := by
  induction l with
  | nil => rfl
  | cons a rest ih =>
    have hs : startsWithCRC (a :: rest) = false := by
      cases hsw : startsWithCRC (a :: rest) with
      | false => rfl
      | true =>
        obtain ⟨t, ht⟩ := startsWithCRC_shape _ hsw
        exact absurd (by rw [List.cons_eq_cons] at ht; exact ht.1)
          (h a (List.mem_cons_self a rest))
    simp only [containsCRCsub, hs, Bool.false_or]
    exact ih (fun c hc => h c (List.mem_cons_of_mem a hc))

theorem containsCRCsub_noR (l : List Char) (h : ∀ c ∈ l, c ≠ 'R') :
    containsCRCsub l = false := by
  induction l with
  | nil => rfl
  | cons a rest ih =>
    have hs : startsWithCRC (a :: rest) = false := by
      cases hsw : startsWithCRC (a :: rest) with
      | false => rfl
      | true =>
        obtain ⟨t, ht⟩ := startsWithCRC_shape _ hsw
        rw [List.cons_eq_cons] at ht
        have hR : 'R' ∈ a :: rest := by
          rw [ht.2]
          exact List.mem_cons_of_mem _ (List.mem_cons_self _ _)
        exact absurd rfl (h 'R' hR)
    simp only [containsCRCsub, hs, Bool.false_or]
    exact ih (fun c hc => h c (List.mem_cons_of_mem a hc))

theorem digChar_ne_C (n : ℕ) : digChar n ≠ 'C' := by
  match n with
  | 0 | 1 | 2 | 3 | 4 | 5 | 6 | 7 | 8 => decide
  | m + 9 => exact (by decide : ('9' : Char) ≠ 'C')

theorem hexChar_ne_R (n : ℕ) : hexChar n ≠ 'R' := by
  match n with
  | 0 | 1 | 2 | 3 | 4 | 5 | 6 | 7 | 8 | 9 | 10 | 11 | 12 | 13 | 14 => decide
  | m + 15 => exact (by decide : ('F' : Char) ≠ 'R')

theorem digitsAux_mem (fuel : ℕ) :
    ∀ n acc c, c ∈ digitsAux fuel n acc → (∃ k, c = digChar k) ∨ c ∈ acc := by
  induction fuel with
  | zero => intro n acc c hc; exact Or.inr hc
  | succ fuel ih =>
    intro n acc c hc
    rw [digitsAux] at hc
    by_cases hn : n < 10
    · rw [if_pos hn] at hc
      rcases List.mem_cons.1 hc with h | h
      · exact Or.inl ⟨n, h⟩
      · exact Or.inr h
    · rw [if_neg hn] at hc
      rcases ih _ _ _ hc with h | h
      · exact Or.inl h
      · rcases List.mem_cons.1 h with h2 | h2
        · exact Or.inl ⟨n % 10, h2⟩
        · exact Or.inr h2

theorem natChars_mem (n : ℕ) (c : Char) (hc : c ∈ natChars n) : ∃ k, c = digChar k := by
  rcases digitsAux_mem _ _ _ _ hc with h | h
  · exact h
  · exact absurd h (List.not_mem_nil c)

theorem hexAux_mem (fuel : ℕ) :
    ∀ n acc c, c ∈ hexAux fuel n acc → (∃ k, c = hexChar k) ∨ c ∈ acc := by
  induction fuel with
  | zero => intro n acc c hc; exact Or.inr hc
  | succ fuel ih =>
    intro n acc c hc
    rw [hexAux] at hc
    by_cases hn : n < 16
    · rw [if_pos hn] at hc
      rcases List.mem_cons.1 hc with h | h
      · exact Or.inl ⟨n, h⟩
      · exact Or.inr h
    · rw [if_neg hn] at hc
      rcases ih _ _ _ hc with h | h
      · exact Or.inl h
      · rcases List.mem_cons.1 h with h2 | h2
        · exact Or.inl ⟨n % 16, h2⟩
        · exact Or.inr h2

theorem renderInt_ne_C (z : ℤ) (c : Char) (hc : c ∈ renderInt z) : c ≠ 'C' := by
  rw [renderInt] at hc
  by_cases hz : z < 0
  · rw [if_pos hz] at hc
    rcases List.mem_cons.1 hc with h | h
    · rw [h]; decide
    · obtain ⟨k, hk⟩ := natChars_mem _ _ h
      rw [hk]; exact digChar_ne_C k
  · rw [if_neg hz] at hc
    obtain ⟨k, hk⟩ := natChars_mem _ _ hc
    rw [hk]; exact digChar_ne_C k

theorem crcMsgCheck_invalidCRC : crcMsgCheck Msg.invalidCRC = true := by decide

theorem crcMsgCheck_wrongStation (e g : ℤ) :
    crcMsgCheck (Msg.wrongStation e g) = false := by
  apply containsCRCsub_noC
  intro c hc
  simp only [renderMsg, List.mem_append] at hc
  rcases hc with ((h | h) | h) | h
  · revert h
    have : ∀ x ∈ "Wrong station ID. Expected ".data, x ≠ 'C' := by decide
    exact fun h => this c h
  · exact renderInt_ne_C e c h
  · revert h
    have : ∀ x ∈ " but got ".data, x ≠ 'C' := by decide
    exact fun h => this c h
  · exact renderInt_ne_C g c h

theorem crcMsgCheck_unhandled (t : ℕ) : crcMsgCheck (Msg.unhandled t) = false := by
  apply containsCRCsub_noR
  intro c hc
  simp only [renderMsg, List.mem_append] at hc
  rcases hc with h | h
  · revert h
    have : ∀ x ∈ "Unhandled data type: 0x".data, x ≠ 'R' := by decide
    exact fun h => this c h
  · rcases hexAux_mem _ _ _ _ h with ⟨k, hk⟩ | h2
    · rw [hk]; exact hexChar_ne_R k
    · exact absurd h2 (List.not_mem_nil c)

/-! ## Helper lemmas: decodeRawData plumbing -/

theorem decode_gates (D : WUDecodeData) (M : WeatherCls) (st : DecodeState) (p : List ℕ)
    (h1 : D.crc16_ccitt p = true) (h2 : D.stationID p = ISS_STATION_ID)
    (h3 : ¬ D.windSpeed p < 0) (h4 : ¬ D.windDirection p < 0) :
    decodeRawData D M st p
      = dispatchData D M (applyWind M st (D.windSpeed p) (D.windDirection p)) p := by
  simp [decodeRawData, h1, h2, h3, h4]

theorem dispatch_rainCount (D : WUDecodeData) (M : WeatherCls) (st : DecodeState)
    (p : List ℕ) (h : nth p 0 / 16 = ISS_RAIN_COUNT) :
    dispatchData D M st p = rainCountBranch D st p := by
  simp [dispatchData, h]

theorem dispatch_rainSeconds (D : WUDecodeData) (M : WeatherCls) (st : DecodeState)
    (p : List ℕ) (h : nth p 0 / 16 = ISS_RAIN_SECONDS) :
    dispatchData D M st p = rainSecondsBranch D st p := by
  rw [dispatchData, if_neg (by rw [h]; decide), if_pos h]

theorem dispatch_temp (D : WUDecodeData) (M : WeatherCls) (st : DecodeState)
    (p : List ℕ) (h : nth p 0 / 16 = ISS_OUT_TEMP) :
    dispatchData D M st p = tempBranch D M st p := by
  rw [dispatchData, if_neg (by rw [h]; decide), if_neg (by rw [h]; decide), if_pos h]
theorem rainCountBranch_fail (D : WUDecodeData) (st : DecodeState) (p : List ℕ)
    (h : (rainCountBranch D st p).2.1 = false) :
    rainCountBranch D st p = (st, false, Msg.invalidRainCounter) := by
  rw [rainCountBranch] at h ⊢
  split_ifs at h ⊢ <;> simp_all

theorem rainSecondsBranch_fail (D : WUDecodeData) (st : DecodeState) (p : List ℕ)
    (h : (rainSecondsBranch D st p).2.1 = false) :
    rainSecondsBranch D st p = (st, false, Msg.invalidRainSeconds) := by
  rw [rainSecondsBranch] at h ⊢
  split_ifs at h ⊢ <;> simp_all

theorem tempBranch_fail (D : WUDecodeData) (M : WeatherCls) (st : DecodeState) (p : List ℕ)
    (h : (tempBranch D M st p).2.1 = false) :
    tempBranch D M st p = (st, false, Msg.invalidTemperature) := by
  rw [tempBranch] at h ⊢
  split_ifs at h ⊢ <;> simp_all

theorem humidityBranch_fail (D : WUDecodeData) (M : WeatherCls) (st : DecodeState) (p : List ℕ)
    (h : (humidityBranch D M st p).2.1 = false) :
    humidityBranch D M st p = (st, false, Msg.invalidHumidity) := by
  rw [humidityBranch] at h ⊢
  split_ifs at h ⊢ <;> simp_all

theorem windGustBranch_fail (D : WUDecodeData) (st : DecodeState) (p : List ℕ)
    (h : (windGustBranch D st p).2.1 = false) :
    windGustBranch D st p = (st, false, Msg.invalidWindGust) := by
  rw [windGustBranch] at h ⊢
  split_ifs at h ⊢ <;> simp_all

theorem capVoltsBranch_fail (D : WUDecodeData) (st : DecodeState) (p : List ℕ)
    (h : (capVoltsBranch D st p).2.1 = false) :
    capVoltsBranch D st p
      = ({ st with suntec := { st.suntec with capacitorVolts := -1 } },
          false, Msg.invalidCapVolts) := by
  rw [capVoltsBranch] at h ⊢
  split_ifs at h ⊢ <;> simp_all

theorem solarBranch_fail (D : WUDecodeData) (st : DecodeState) (p : List ℕ)
    (h : (solarBranch D st p).2.1 = false) :
    solarBranch D st p = (st, false, Msg.invalidSolar) := by
  rw [solarBranch] at h ⊢
  split_ifs at h ⊢ <;> simp_all

theorem uvBranch_fail (D : WUDecodeData) (st : DecodeState) (p : List ℕ)
    (h : (uvBranch D st p).2.1 = false) :
    uvBranch D st p = (st, false, Msg.invalidUV) := by
  rw [uvBranch] at h ⊢
  split_ifs at h ⊢ <;> simp_all
theorem dispatchData_fail (D : WUDecodeData) (M : WeatherCls) (st : DecodeState) (p : List ℕ)
    (h : (dispatchData D M st p).2.1 = false) :
    (dispatchData D M st p).1.suntec.rainToday = st.suntec.rainToday ∧
    (dispatchData D M st p).1.suntec.rainRate = st.suntec.rainRate ∧
    (dispatchData D M st p).1.suntec.windGust = st.suntec.windGust ∧
    (dispatchData D M st p).1.suntec.outsideTemp = st.suntec.outsideTemp ∧
    (dispatchData D M st p).1.suntec.humidity = st.suntec.humidity ∧
    (dispatchData D M st p).1.suntec.solar = st.suntec.solar ∧
    (dispatchData D M st p).1.suntec.uvIndex = st.suntec.uvIndex ∧
    (dispatchData D M st p).1.suntec.pressure = st.suntec.pressure ∧
    (dispatchData D M st p).1.suntec.dewPoint = st.suntec.dewPoint ∧
    (dispatchData D M st p).1.suntec.windChill = st.suntec.windChill ∧
    (dispatchData D M st p).1.suntec.windSpeed = st.suntec.windSpeed ∧
    (dispatchData D M st p).1.suntec.windDir = st.suntec.windDir ∧
    (dispatchData D M st p).1.rainCounterOld = st.rainCounterOld ∧
    (dispatchData D M st p).1.rainCntDataPts = st.rainCntDataPts ∧
    (dispatchData D M st p).2.2 ≠ Msg.invalidCRC ∧
    (∀ e g, (dispatchData D M st p).2.2 ≠ Msg.wrongStation e g) := by
  rw [dispatchData] at h ⊢
  split_ifs at h ⊢
  · rw [rainCountBranch_fail D st p h]; simp
  · rw [rainSecondsBranch_fail D st p h]; simp
  · rw [tempBranch_fail D M st p h]; simp
  · rw [windGustBranch_fail D st p h]; simp
  · rw [humidityBranch_fail D M st p h]; simp
  · rw [capVoltsBranch_fail D st p h]; simp
  · rw [solarBranch_fail D st p h]; simp
  · rw [uvBranch_fail D st p h]; simp
  · simp
/-- C1 (amended): on every decode failure, `rainToday`, `rainRate`,
`windGust`, `outsideTemp`, `humidity`, `solar`, `uvIndex`, `pressure`,
`dewPoint`, `windChill` and the rain-counter globals are unchanged, and
checksum-mismatch and wrong-station failures leave the whole state
unchanged.  (Wind fields and `capacitorVolts` may change on later
failures; see the counterexample.) -/
theorem C1_decode_failure_effects (D : WUDecodeData) (M : WeatherCls)
    (st : DecodeState) (p : List ℕ) (hlen : p.length = 8)
    (h : (decodeRawData D M st p).2.1 = false) :
    (((decodeRawData D M st p).2.2 = Msg.invalidCRC ∨
        ∃ e g, (decodeRawData D M st p).2.2 = Msg.wrongStation e g) →
      (decodeRawData D M st p).1 = st) ∧
    (decodeRawData D M st p).1.suntec.rainToday = st.suntec.rainToday ∧
    (decodeRawData D M st p).1.suntec.rainRate = st.suntec.rainRate ∧
    (decodeRawData D M st p).1.suntec.windGust = st.suntec.windGust ∧
    (decodeRawData D M st p).1.suntec.outsideTemp = st.suntec.outsideTemp ∧
    (decodeRawData D M st p).1.suntec.humidity = st.suntec.humidity ∧
    (decodeRawData D M st p).1.suntec.solar = st.suntec.solar ∧
    (decodeRawData D M st p).1.suntec.uvIndex = st.suntec.uvIndex ∧
    (decodeRawData D M st p).1.suntec.pressure = st.suntec.pressure ∧
    (decodeRawData D M st p).1.suntec.dewPoint = st.suntec.dewPoint ∧
    (decodeRawData D M st p).1.suntec.windChill = st.suntec.windChill ∧
    (decodeRawData D M st p).1.rainCounterOld = st.rainCounterOld ∧
    (decodeRawData D M st p).1.rainCntDataPts = st.rainCntDataPts := by
  by_cases h1 : D.crc16_ccitt p = false
  · rw [decodeRawData, if_pos h1]; simp
  · rw [decodeRawData, if_neg h1] at h ⊢
    by_cases h2 : D.stationID p ≠ ISS_STATION_ID
    · rw [if_pos h2] at h ⊢; simp
    · rw [if_neg h2] at h ⊢
      by_cases h3 : D.windSpeed p < 0
      · rw [if_pos h3] at h ⊢; simp [setWindSpeed]
      · rw [if_neg h3] at h ⊢
        by_cases h4 : D.windDirection p < 0
        · rw [if_pos h4] at h ⊢; simp [setWindSpeed]
        · rw [if_neg h4] at h ⊢
          have hd := dispatchData_fail D M
            (applyWind M st (D.windSpeed p) (D.windDirection p)) p h
          simp only [applyWind] at hd ⊢
          obtain ⟨ha, hb, hc, hdd, he, hf, hg, hh, hi, hj, _, _, hk, hl, hm, hn⟩ := hd
          refine ⟨fun hmsg => ?_, ha, hb, hc, hdd, he, hf, hg, hh, hi, hj, hk, hl⟩
          rcases hmsg with h' | ⟨e, g, h'⟩
          · exact absurd h' hm
          · exact absurd h' (hn e g)
set_option maxRecDepth 40000

/-- C1 (counterexample): a valid-CRC, right-station packet with unhandled
tag 0x3 makes `decodeRawData` return a failure result, yet `suntec.windSpeed`
(and `suntec.windDir`) change: error results are not atomic as claimed. -/
theorem C1_counterexample :
    p3c.length = 8 ∧
    (decodeRawData specD specM initState p3c).2.1 = false ∧
    (decodeRawData specD specM initState p3c).1.suntec.windSpeed
      ≠ initState.suntec.windSpeed := by
  have h1 : specD.crc16_ccitt p3c = true := by decide
  have h2 : specD.stationID p3c = 1 := by decide
  have h3 : specD.windSpeed p3c = 5 := by
    show ((48 % 16) * 256 + 5 : ℕ) = (5 : ℚ)
    norm_num
  have h4 : ¬ (specD.windDirection p3c < 0) := by
    show ¬ (((10 : ℕ) : ℚ) * 1.40625 + 0.3 < 0)
    norm_num
  have h5 : nth p3c 0 = 48 := by decide
  refine ⟨by decide, ?_, ?_⟩ <;>
    simp [decodeRawData, h1, h2, h3, h4, h5, ISS_STATION_ID, dispatchData,
      ISS_RAIN_COUNT, ISS_RAIN_SECONDS, ISS_OUT_TEMP, ISS_WIND_GUST, ISS_HUMIDITY,
      ISS_CAP_VOLTS, ISS_SOLAR_RAD, ISS_UV_INDEX, applyWind, initState] <;>
    norm_num

/-- C1 (witness for the amended theorem): on the bad-checksum packet `pBad`
the decode fails and the whole state is unchanged. -/
theorem C1_witness :
    pBad.length = 8 ∧
    (decodeRawData specD specM initState pBad).2.1 = false ∧
    (decodeRawData specD specM initState pBad).1 = initState := by
  have hcrc : specD.crc16_ccitt pBad = false := by decide
  have hf : (decodeRawData specD specM initState pBad).2.1 = false := by
    rw [decodeRawData, if_pos hcrc]
  have hmsg : (decodeRawData specD specM initState pBad).2.2 = Msg.invalidCRC := by
    rw [decodeRawData, if_pos hcrc]
  have h := C1_decode_failure_effects specD specM initState pBad (by decide) hf
  exact ⟨by decide, hf, h.1 (Or.inl hmsg)⟩
/-- C10: the wind direction printed from raw byte 2 is
`raw * 1.40625 + 0.3`, which for every raw byte 0..255 lies within
[0.3, 358.9]. -/
theorem C10_wind_direction_scaling (b2 : ℕ) (h : b2 ≤ 255) :
    0.3 ≤ windDirNow b2 ∧ windDirNow b2 ≤ 358.9 := by
  have hb : (b2 : ℚ) ≤ 255 := by exact_mod_cast h
  have hb0 : (0 : ℚ) ≤ (b2 : ℚ) := by positivity
  constructor
  · rw [windDirNow]
    nlinarith
  · rw [windDirNow]
    nlinarith

/-- C10 (witness): at raw byte 255 the scaled direction is 358.89375,
inside [0.3, 358.9]. -/
theorem C10_witness :
    (255 : ℕ) ≤ 255 ∧ 0.3 ≤ windDirNow 255 ∧ windDirNow 255 ≤ 358.9 :=
  ⟨le_refl 255, C10_wind_direction_scaling 255 (le_refl 255)⟩

/-- C3: `getDailyRain` always returns a bare numeric scalar (the daily rain
on success, -102 on failure), never a list; subscripting its result, as the
startup code does with `newRainToday[0]`, is a `TypeError` for every
possible response. -/
theorem C3_getDailyRain_scalar (resp : WUResponse) :
    (∃ q : ℚ, getDailyRain resp = PyVal.num q ∧
      (q = resp.precipValue ∨ q = ERR_INVALID_DATA)) ∧
    pyIndex (getDailyRain resp) 0 = none ∧
    pyIndex (getDailyRain resp) 1 = none ∧
    startupRainCheck resp = none := by
  rw [getDailyRain, startupRainCheck, getDailyRain]
  by_cases h1 : 1 < resp.length
  · by_cases h2 : resp.precipIsNumber = true
    · rw [if_pos h1, if_pos h2]
      exact ⟨⟨resp.precipValue, rfl, Or.inl rfl⟩, rfl, rfl, rfl⟩
    · rw [if_pos h1, if_neg h2]
      exact ⟨⟨ERR_INVALID_DATA, rfl, Or.inr rfl⟩, rfl, rfl, rfl⟩
  · rw [if_neg h1]
    exact ⟨⟨ERR_INVALID_DATA, rfl, Or.inr rfl⟩, rfl, rfl, rfl⟩

/-- C3 (witness): on a concrete successful response the returned value is
the bare scalar 0.25 and subscripting it is a `TypeError`. -/
theorem C3_witness :
    getDailyRain ⟨3, true, 1/4⟩ = PyVal.num (1/4) ∧
    pyIndex (getDailyRain ⟨3, true, 1/4⟩) 0 = none ∧
    startupRainCheck ⟨3, true, 1/4⟩ = none := by
  have h := C3_getDailyRain_scalar ⟨3, true, 1/4⟩
  exact ⟨by rw [getDailyRain]; norm_num, h.2.1, h.2.2.2⟩
theorem specD_windSpeed_nonneg (p : List ℕ) : ¬ specD.windSpeed p < 0 := by
  simp only [specD, not_lt]
  positivity

theorem specD_windDirection_nonneg (p : List ℕ) : ¬ specD.windDirection p < 0 := by
  simp only [specD, windDirNow, not_lt]
  positivity

theorem rain_step (D : WUDecodeData) (M : WeatherCls) (st : DecodeState) (p : List ℕ)
    (h1 : D.crc16_ccitt p = true) (h2 : D.stationID p = ISS_STATION_ID)
    (h3 : ¬ D.windSpeed p < 0) (h4 : ¬ D.windDirection p < 0)
    (htag : nth p 0 / 16 = ISS_RAIN_COUNT)
    (hc0 : 0 ≤ D.rainCounter p) (hc127 : D.rainCounter p ≤ 127) :
    decodeRawData D M st p
      = (bumpPts (rainAccum
            (rainRecord (applyWind M st (D.windSpeed p) (D.windDirection p))
              (D.rainCounter p))
            (D.rainCounter p)),
          true, Msg.rainCountOK) := by
  rw [decode_gates D M st p h1 h2 h3 h4, dispatch_rainCount D M _ p htag,
    rainCountBranch, if_neg (by omega)]
/-- C6: in the accumulating case with wraparound (new counter value strictly
below the recorded previous one, both in 0..127), the added delta is
`(128 - previous) + new`, which equals `(new - previous) mod 128` and is
strictly positive. -/
theorem C6_rain_wraparound (D : WUDecodeData) (M : WeatherCls) (st : DecodeState)
    (p : List ℕ)
    (h1 : D.crc16_ccitt p = true) (h2 : D.stationID p = ISS_STATION_ID)
    (h3 : ¬ D.windSpeed p < 0) (h4 : ¬ D.windDirection p < 0)
    (htag : nth p 0 / 16 = ISS_RAIN_COUNT)
    (hc0 : 0 ≤ D.rainCounter p) (hc127 : D.rainCounter p ≤ 127)
    (ho0 : 0 ≤ st.rainCounterOld) (ho127 : st.rainCounterOld ≤ 127)
    (hlt : D.rainCounter p < st.rainCounterOld)
    (hpts : 2 ≤ st.rainCntDataPts) :
    (decodeRawData D M st p).1.suntec.rainToday
      = st.suntec.rainToday
        + (((128 - st.rainCounterOld) + D.rainCounter p : ℤ) : ℚ) / 100 ∧
    (128 - st.rainCounterOld) + D.rainCounter p
      = (D.rainCounter p - st.rainCounterOld) % 128 ∧
    0 < (128 - st.rainCounterOld) + D.rainCounter p := by
  rw [rain_step D M st p h1 h2 h3 h4 htag hc0 hc127]
  have hne : st.rainCounterOld ≠ D.rainCounter p := by omega
  have hpts1 : ¬ st.rainCntDataPts = 1 := by omega
  refine ⟨?_, by omega, by omega⟩
  simp [bumpPts, rainAccum, rainRecord, rainDelta, applyWind, hpts, hpts1, hne, hlt]

/-- C6 (witness): previous counter 126, new counter 2 adds exactly
0.04 inches (4 tips: not negative, not 124). -/
theorem C6_witness :
    (decodeRawData specD specM
        { initState with rainCounterOld := 126, rainCntDataPts := 2 }
        p2rc).1.suntec.rainToday = 4 / 100 ∧
    ((2 : ℤ) - 126) % 128 = 4 := by
  have h := C6_rain_wraparound specD specM
    { initState with rainCounterOld := 126, rainCntDataPts := 2 } p2rc
    (by decide) (by decide) (specD_windSpeed_nonneg p2rc)
    (specD_windDirection_nonneg p2rc) (by decide) (by decide) (by decide)
    (by decide) (by decide) (by decide) (by decide)
  have hc : specD.rainCounter p2rc = 2 := by decide
  refine ⟨?_, by decide⟩
  rw [h.1]
  norm_num [initState, hc]
/-- C7: for a RainSeconds packet with decoded interval `s`: when
`0 < s < 900` the rain rate becomes `0.01 * 3600 / s` and the decode
succeeds; when `s ≥ 900` the rate becomes 0 and the decode succeeds; when
`s ≤ 0` the decode fails and the rate is unchanged. -/
theorem C7_rain_rate (D : WUDecodeData) (M : WeatherCls) (st : DecodeState)
    (p : List ℕ) (s : ℤ)
    (h1 : D.crc16_ccitt p = true) (h2 : D.stationID p = ISS_STATION_ID)
    (h3 : ¬ D.windSpeed p < 0) (h4 : ¬ D.windDirection p < 0)
    (htag : nth p 0 / 16 = ISS_RAIN_SECONDS)
    (hs : D.rainRate p = s) :
    (0 < s → s < 900 →
      (decodeRawData D M st p).2.1 = true ∧
      (decodeRawData D M st p).1.suntec.rainRate = (0.01 * 3600) / (s : ℚ)) ∧
    (900 ≤ s →
      (decodeRawData D M st p).2.1 = true ∧
      (decodeRawData D M st p).1.suntec.rainRate = 0) ∧
    (s ≤ 0 →
      (decodeRawData D M st p).2.1 = false ∧
      (decodeRawData D M st p).1.suntec.rainRate = st.suntec.rainRate) := by
  rw [decode_gates D M st p h1 h2 h3 h4, dispatch_rainSeconds D M _ p htag,
    rainSecondsBranch, hs]
  refine ⟨fun hpos hlt => ?_, fun hge => ?_, fun hle => ?_⟩
  · rw [if_pos hpos, if_pos (by omega : s < 60 * 15)]
    exact ⟨rfl, rfl⟩
  · rw [if_pos (by omega : (0 : ℤ) < s), if_neg (by omega : ¬ s < 60 * 15)]
    exact ⟨rfl, rfl⟩
  · rw [if_neg (by omega : ¬ (0 : ℤ) < s)]
    exact ⟨rfl, by simp [applyWind]⟩

/-- C7 (witness): interval 10 s gives rate 3.6 in/hr; interval 1000 s gives
rate 0; interval 0 fails and leaves the rate unchanged. -/
theorem C7_witness :
    (decodeRawData specD specM initState prs10).1.suntec.rainRate = 3.6 ∧
    (decodeRawData specD specM initState prs1000).1.suntec.rainRate = 0 ∧
    (decodeRawData specD specM initState prs0).2.1 = false ∧
    (decodeRawData specD specM initState prs0).1.suntec.rainRate
      = initState.suntec.rainRate := by
  have hA := C7_rain_rate specD specM initState prs10 10
    (by decide) (by decide) (specD_windSpeed_nonneg prs10)
    (specD_windDirection_nonneg prs10) (by decide) (by decide)
  have hB := C7_rain_rate specD specM initState prs1000 1000
    (by decide) (by decide) (specD_windSpeed_nonneg prs1000)
    (specD_windDirection_nonneg prs1000) (by decide) (by decide)
  have hC := C7_rain_rate specD specM initState prs0 0
    (by decide) (by decide) (specD_windSpeed_nonneg prs0)
    (specD_windDirection_nonneg prs0) (by decide) (by decide)
  refine ⟨?_, (hB.2.1 (by norm_num)).2, (hC.2.2 le_rfl).1, (hC.2.2 le_rfl).2⟩
  rw [(hA.1 (by norm_num) (by norm_num)).2]
  norm_num
theorem dispatch_nonrain_pres (D : WUDecodeData) (M : WeatherCls) (st : DecodeState)
    (p : List ℕ) (h14 : nth p 0 / 16 ≠ ISS_RAIN_COUNT) :
    (dispatchData D M st p).1.suntec.rainToday = st.suntec.rainToday ∧
    (dispatchData D M st p).1.rainCounterOld = st.rainCounterOld ∧
    (dispatchData D M st p).1.rainCntDataPts = st.rainCntDataPts := by
  rw [dispatchData, if_neg h14]
  split_ifs <;>
    simp [rainSecondsBranch, tempBranch, humidityBranch, windGustBranch,
      capVoltsBranch, solarBranch, uvBranch, dewPointUpd, apply_ite]

/-- C8: assuming the recorded previous counter is in range (an invariant
established at startup and preserved by every call), `decodeRawData` never
decreases `rainToday`; it increases it only on a RainCounter packet with
in-range counter value, by `delta * 0.01` inches with `delta` in 1..127;
and the recorded previous counter stays in range. -/
theorem C8_rainToday_monotone (D : WUDecodeData) (M : WeatherCls) (st : DecodeState)
    (p : List ℕ) (ho0 : 0 ≤ st.rainCounterOld) (ho127 : st.rainCounterOld ≤ 127) :
    ((decodeRawData D M st p).1.suntec.rainToday = st.suntec.rainToday ∨
      (nth p 0 / 16 = ISS_RAIN_COUNT ∧ 0 ≤ D.rainCounter p ∧ D.rainCounter p ≤ 127 ∧
        ∃ delta : ℤ, 1 ≤ delta ∧ delta ≤ 127 ∧
          (decodeRawData D M st p).1.suntec.rainToday
            = st.suntec.rainToday + (delta : ℚ) / 100)) ∧
    st.suntec.rainToday ≤ (decodeRawData D M st p).1.suntec.rainToday ∧
    0 ≤ (decodeRawData D M st p).1.rainCounterOld ∧
    (decodeRawData D M st p).1.rainCounterOld ≤ 127 := by
  by_cases h1 : D.crc16_ccitt p = false
  · rw [decodeRawData, if_pos h1]; exact ⟨Or.inl rfl, le_rfl, ho0, ho127⟩
  rw [decodeRawData, if_neg h1]
  by_cases h2 : D.stationID p ≠ ISS_STATION_ID
  · rw [if_pos h2]; exact ⟨Or.inl rfl, le_rfl, ho0, ho127⟩
  rw [if_neg h2]
  by_cases h3 : D.windSpeed p < 0
  · rw [if_pos h3]; exact ⟨Or.inl rfl, le_rfl, ho0, ho127⟩
  rw [if_neg h3]
  by_cases h4 : D.windDirection p < 0
  · rw [if_pos h4]; exact ⟨Or.inl rfl, le_rfl, ho0, ho127⟩
  rw [if_neg h4]
  by_cases h14 : nth p 0 / 16 = ISS_RAIN_COUNT
  · rw [dispatch_rainCount D M _ p h14, rainCountBranch]
    by_cases hv : D.rainCounter p < 0 ∨ 127 < D.rainCounter p
    · rw [if_pos hv]; exact ⟨Or.inl rfl, le_rfl, ho0, ho127⟩
    rw [if_neg hv]
    push_neg at hv
    obtain ⟨hc0, hc127⟩ : 0 ≤ D.rainCounter p ∧ D.rainCounter p ≤ 127 := by
      constructor <;> omega
    by_cases hp1 : st.rainCntDataPts = 1
    · have e1 : (bumpPts (rainAccum
          (rainRecord (applyWind M st (D.windSpeed p) (D.windDirection p))
            (D.rainCounter p)) (D.rainCounter p))).suntec.rainToday
            = st.suntec.rainToday := by
        simp [applyWind, rainRecord, rainAccum, bumpPts, hp1]
      have e2 : (bumpPts (rainAccum
          (rainRecord (applyWind M st (D.windSpeed p) (D.windDirection p))
            (D.rainCounter p)) (D.rainCounter p))).rainCounterOld
            = D.rainCounter p := by
        simp [applyWind, rainRecord, rainAccum, bumpPts, hp1]
      exact ⟨Or.inl e1, le_of_eq e1.symm, by rw [e2]; exact hc0, by rw [e2]; exact hc127⟩
    · by_cases hacc : 2 ≤ st.rainCntDataPts ∧ st.rainCounterOld ≠ D.rainCounter p
      · have e1 : (bumpPts (rainAccum
            (rainRecord (applyWind M st (D.windSpeed p) (D.windDirection p))
              (D.rainCounter p)) (D.rainCounter p))).suntec.rainToday
              = st.suntec.rainToday
                + ((rainDelta st.rainCounterOld (D.rainCounter p) : ℤ) : ℚ) / 100 := by
          simp [applyWind, rainRecord, rainAccum, bumpPts, hp1, hacc]
        have e2 : (bumpPts (rainAccum
            (rainRecord (applyWind M st (D.windSpeed p) (D.windDirection p))
              (D.rainCounter p)) (D.rainCounter p))).rainCounterOld
              = D.rainCounter p := by
          simp [applyWind, rainRecord, rainAccum, bumpPts, hp1, hacc]
        have hd1 : 1 ≤ rainDelta st.rainCounterOld (D.rainCounter p) := by
          rw [rainDelta]; split_ifs <;> omega
        have hd127 : rainDelta st.rainCounterOld (D.rainCounter p) ≤ 127 := by
          rw [rainDelta]; split_ifs <;> omega
        have hq : (0 : ℚ) ≤ ((rainDelta st.rainCounterOld (D.rainCounter p) : ℤ) : ℚ) / 100 := by
          apply div_nonneg _ (by norm_num)
          exact_mod_cast (by omega : (0 : ℤ) ≤ rainDelta st.rainCounterOld (D.rainCounter p))
        refine ⟨Or.inr ⟨h14, hc0, hc127,
          rainDelta st.rainCounterOld (D.rainCounter p), hd1, hd127, e1⟩,
          ?_, by rw [e2]; exact hc0, by rw [e2]; exact hc127⟩
        rw [e1]; linarith
      · have e1 : (bumpPts (rainAccum
            (rainRecord (applyWind M st (D.windSpeed p) (D.windDirection p))
              (D.rainCounter p)) (D.rainCounter p))).suntec.rainToday
              = st.suntec.rainToday := by
          simp [applyWind, rainRecord, rainAccum, bumpPts, hp1, hacc]
        have e2 : (bumpPts (rainAccum
            (rainRecord (applyWind M st (D.windSpeed p) (D.windDirection p))
              (D.rainCounter p)) (D.rainCounter p))).rainCounterOld
              = st.rainCounterOld := by
          simp [applyWind, rainRecord, rainAccum, bumpPts, hp1, hacc]
        exact ⟨Or.inl e1, le_of_eq e1.symm, by rw [e2]; exact ho0, by rw [e2]; exact ho127⟩
  · obtain ⟨ha, hb, _⟩ := dispatch_nonrain_pres D M
      (applyWind M st (D.windSpeed p) (D.windDirection p)) p h14
    refine ⟨Or.inl ha, le_of_eq ha.symm, ?_, ?_⟩ <;> rw [hb] <;> assumption
/-- C8 (witness): from previous counter 10 (2 data points seen), the
RainCounter packet with value 12 does not decrease `rainToday` and keeps
the recorded counter in range. -/
theorem C8_witness :
    0 ≤ (({ initState with rainCounterOld := 10, rainCntDataPts := 2 } :
        DecodeState)).rainCounterOld ∧
    (({ initState with rainCounterOld := 10, rainCntDataPts := 2 } :
        DecodeState)).suntec.rainToday
      ≤ (decodeRawData specD specM
          { initState with rainCounterOld := 10, rainCntDataPts := 2 }
          p12rc).1.suntec.rainToday ∧
    0 ≤ (decodeRawData specD specM
          { initState with rainCounterOld := 10, rainCntDataPts := 2 }
          p12rc).1.rainCounterOld := by
  have h := C8_rainToday_monotone specD specM
    { initState with rainCounterOld := 10, rainCntDataPts := 2 } p12rc
    (by decide) (by decide)
  exact ⟨by decide, h.2.1, h.2.2.1⟩

/-- C2: evaluating the code at the failing input.  From startup state
(`g_rainCntDataPts = 0`, `g_rainCounterOld = 0`, `rainToday = 0`), feeding
RainCounter readings 50, 53 and 57: the first reading does *not* record 50
as the previous value (it stays 0), the second reading records 53 and adds
*nothing* to `rainToday` (the claim and the code's own comment expect
+0.03), and only the third reading accumulates (+0.04). -/
theorem C2_code_eval :
    (decodeRawData specD specM initState p50).1.rainCounterOld = 0 ∧
    (decodeRawData specD specM initState p50).1.rainCntDataPts = 1 ∧
    (decodeRawData specD specM initState p50).1.suntec.rainToday = 0 ∧
    (decodeRawData specD specM
        (decodeRawData specD specM initState p50).1 p53).1.rainCounterOld = 53 ∧
    (decodeRawData specD specM
        (decodeRawData specD specM initState p50).1 p53).1.rainCntDataPts = 2 ∧
    (decodeRawData specD specM
        (decodeRawData specD specM initState p50).1 p53).1.suntec.rainToday = 0 ∧
    (decodeRawData specD specM
        (decodeRawData specD specM
          (decodeRawData specD specM initState p50).1 p53).1
        p57).1.suntec.rainToday = 4 / 100 := by
  rw [rain_step specD specM initState p50 (by decide) (by decide)
    (specD_windSpeed_nonneg p50) (specD_windDirection_nonneg p50)
    (by decide) (by decide) (by decide)]
  rw [rain_step specD specM _ p53 (by decide) (by decide)
    (specD_windSpeed_nonneg p53) (specD_windDirection_nonneg p53)
    (by decide) (by decide) (by decide)]
  rw [rain_step specD specM _ p57 (by decide) (by decide)
    (specD_windSpeed_nonneg p57) (specD_windDirection_nonneg p57)
    (by decide) (by decide) (by decide)]
  have h50 : specD.rainCounter p50 = 50 := by decide
  have h53 : specD.rainCounter p53 = 53 := by decide
  have h57 : specD.rainCounter p57 = 57 := by decide
  simp [h50, h53, h57, bumpPts, rainAccum, rainRecord, rainDelta, applyWind, initState]

/-! ## Helper lemmas: the link monitor -/

theorem mainLoopStep_success (ls : LinkState) (m : Msg) (now : ℚ) :
    mainLoopStep ls true m now = ({ ls with g_crc_fail_count := 0 }, false) := by
  rw [mainLoopStep, if_pos rfl]

theorem mainLoopStep_fired_iff (ls : LinkState) (m : Msg) (now : ℚ) :
    (mainLoopStep ls false m now).2 = true ↔
      (crcMsgCheck m = true ∧ CRC_FAIL_THRESHOLD ≤ ls.g_crc_fail_count + 1 ∧
        CRC_RESET_COOLDOWN < now - ls.g_crc_last_reset) := by
  rw [mainLoopStep]
  simp only [Bool.false_eq_true, if_false]
  cases hc : crcMsgCheck m
  · simp [CRC_FAIL_THRESHOLD]
  · simp only [if_true]
    split_ifs with h
    · simp [h]
    · simp [h]

theorem mainLoopStep_fired_state (ls : LinkState) (s : Bool) (m : Msg) (now : ℚ)
    (h : (mainLoopStep ls s m now).2 = true) :
    (mainLoopStep ls s m now).1 = ⟨0, now⟩ ∧
    CRC_RESET_COOLDOWN < now - ls.g_crc_last_reset := by
  rw [mainLoopStep] at h ⊢
  cases s
  · simp only [Bool.false_eq_true, if_false] at h ⊢
    split_ifs at h ⊢ with h1 h2 h3
    · exact ⟨rfl, h2.2⟩
    · exact ⟨rfl, h3.2⟩
  · simp at h

theorem mainLoopStep_lastReset_mono (ls : LinkState) (s : Bool) (m : Msg) (now : ℚ) :
    ls.g_crc_last_reset ≤ (mainLoopStep ls s m now).1.g_crc_last_reset := by
  rw [mainLoopStep]
  cases s
  · simp only [Bool.false_eq_true, if_false]
    split_ifs with h1 h2 h3
    · have h60 := h2.2
      rw [CRC_RESET_COOLDOWN] at h60
      show ls.g_crc_last_reset ≤ now
      linarith
    · exact le_rfl
    · have h60 := h3.2
      rw [CRC_RESET_COOLDOWN] at h60
      show ls.g_crc_last_reset ≤ now
      linarith
    · exact le_rfl
  · simp

theorem runLink_lastReset_mono (evs : List (Bool × Msg × ℚ)) (ls : LinkState) :
    ls.g_crc_last_reset ≤ (runLink ls evs).1.g_crc_last_reset := by
  induction evs generalizing ls with
  | nil => exact le_rfl
  | cons e rest ih =>
    obtain ⟨s, m, t⟩ := e
    rw [runLink]
    exact le_trans (mainLoopStep_lastReset_mono ls s m t) (ih _)
/-- C4: recovery is attempted exactly when the consecutive CRC-failure count
reaches `CRC_FAIL_THRESHOLD` = 12 while more than `CRC_RESET_COOLDOWN` = 60
seconds have passed since the last recovery; the attempt zeroes the count
and stamps the time; 11 consecutive checksum failures never trigger
recovery, the 12th (with cooldown elapsed) triggers exactly once and a 13th
within the cooldown does not; and no two recovery attempts ever happen
within one cooldown window. -/
theorem C4_recovery_gating :
    (∀ (ls : LinkState) (m : Msg) (now : ℚ),
      ((mainLoopStep ls false m now).2 = true ↔
        (crcMsgCheck m = true ∧ CRC_FAIL_THRESHOLD ≤ ls.g_crc_fail_count + 1 ∧
          CRC_RESET_COOLDOWN < now - ls.g_crc_last_reset))) ∧
    (∀ (ls : LinkState) (m : Msg) (now : ℚ), (mainLoopStep ls true m now).2 = false) ∧
    (∀ (ls : LinkState) (s : Bool) (m : Msg) (now : ℚ),
      (mainLoopStep ls s m now).2 = true →
        (mainLoopStep ls s m now).1 = ⟨0, now⟩) ∧
    (∀ (r0 t1 t2 t3 t4 t5 t6 t7 t8 t9 t10 t11 t12 t13 : ℚ),
      CRC_RESET_COOLDOWN < t12 - r0 →
      (runLink ⟨0, r0⟩
        [(false, Msg.invalidCRC, t1), (false, Msg.invalidCRC, t2),
         (false, Msg.invalidCRC, t3), (false, Msg.invalidCRC, t4),
         (false, Msg.invalidCRC, t5), (false, Msg.invalidCRC, t6),
         (false, Msg.invalidCRC, t7), (false, Msg.invalidCRC, t8),
         (false, Msg.invalidCRC, t9), (false, Msg.invalidCRC, t10),
         (false, Msg.invalidCRC, t11), (false, Msg.invalidCRC, t12),
         (false, Msg.invalidCRC, t13)]).2
        = [false, false, false, false, false, false, false, false, false, false,
           false, true, false]) ∧
    (∀ (ls : LinkState) (evs1 evs2 : List (Bool × Msg × ℚ)) (s s' : Bool)
        (m m' : Msg) (t t' : ℚ),
      (mainLoopStep (runLink ls evs1).1 s m t).2 = true →
      (mainLoopStep (runLink (mainLoopStep (runLink ls evs1).1 s m t).1 evs2).1
          s' m' t').2 = true →
      t + CRC_RESET_COOLDOWN < t') := by
  refine ⟨mainLoopStep_fired_iff,
    fun ls m now => by rw [mainLoopStep_success],
    fun ls s m now h => (mainLoopStep_fired_state ls s m now h).1, ?_, ?_⟩
  · intro r0 t1 t2 t3 t4 t5 t6 t7 t8 t9 t10 t11 t12 t13 ht
    rw [CRC_RESET_COOLDOWN] at ht
    simp [runLink, mainLoopStep, crcMsgCheck_invalidCRC, CRC_FAIL_THRESHOLD,
      CRC_RESET_COOLDOWN, ht]
  · intro ls evs1 evs2 s s' m m' t t' hA hB
    obtain ⟨hAst, _⟩ := mainLoopStep_fired_state _ _ _ _ hA
    obtain ⟨_, hB60⟩ := mainLoopStep_fired_state _ _ _ _ hB
    have hmono := runLink_lastReset_mono evs2 (mainLoopStep (runLink ls evs1).1 s m t).1
    rw [hAst] at hmono hB60
    have e : (⟨0, t⟩ : LinkState).g_crc_last_reset = t := rfl
    rw [e] at hmono
    rw [CRC_RESET_COOLDOWN] at hB60 ⊢
    linarith
/-- C4 (witness): from a fresh monitor state (last reset at time 0), 13
consecutive checksum failures at times 101..113: the first 11 do not
trigger recovery, the 12th does, the 13th (within the new cooldown) does
not. -/
theorem C4_witness :
    (runLink ⟨0, 0⟩
      [(false, Msg.invalidCRC, 101), (false, Msg.invalidCRC, 102),
       (false, Msg.invalidCRC, 103), (false, Msg.invalidCRC, 104),
       (false, Msg.invalidCRC, 105), (false, Msg.invalidCRC, 106),
       (false, Msg.invalidCRC, 107), (false, Msg.invalidCRC, 108),
       (false, Msg.invalidCRC, 109), (false, Msg.invalidCRC, 110),
       (false, Msg.invalidCRC, 111), (false, Msg.invalidCRC, 112),
       (false, Msg.invalidCRC, 113)]).2
      = [false, false, false, false, false, false, false, false, false, false,
         false, true, false] :=
  C4_recovery_gating.2.2.2.1 0 101 102 103 104 105 106 107 108 109 110 111 112 113
    (by rw [CRC_RESET_COOLDOWN]; norm_num)

theorem containsCRCsub_append_right (l1 l2 : List Char)
    (h : containsCRCsub l2 = true) : containsCRCsub (l1 ++ l2) = true := by
  induction l1 with
  | nil => simpa using h
  | cons a t ih => simp [containsCRCsub, ih]

/-- C5 (amended): the streak counter is driven by the `"CRC" in message`
substring test: successes reset it; the "Invalid CRC" message passes the
test and increments it (absent a recovery); wrong-station, all
invalid-payload and unhandled-tag messages fail the test and reset it; but
wind-speed/wind-direction extraction failure messages embed the raw packet
bytes and can pass the test, in which case a non-checksum failure
increments the streak (see the counterexample). -/
theorem C5_crc_streak_classification :
    (∀ (ls : LinkState) (m : Msg) (now : ℚ),
      (mainLoopStep ls true m now).1.g_crc_fail_count = 0) ∧
    crcMsgCheck Msg.invalidCRC = true ∧
    (∀ e g, crcMsgCheck (Msg.wrongStation e g) = false) ∧
    crcMsgCheck Msg.invalidRainCounter = false ∧
    crcMsgCheck Msg.invalidRainSeconds = false ∧
    crcMsgCheck Msg.invalidTemperature = false ∧
    crcMsgCheck Msg.invalidWindGust = false ∧
    crcMsgCheck Msg.invalidHumidity = false ∧
    crcMsgCheck Msg.invalidCapVolts = false ∧
    crcMsgCheck Msg.invalidSolar = false ∧
    crcMsgCheck Msg.invalidUV = false ∧
    (∀ t, crcMsgCheck (Msg.unhandled t) = false) ∧
    (∀ (ls : LinkState) (m : Msg) (now : ℚ), crcMsgCheck m = false →
      (mainLoopStep ls false m now).1.g_crc_fail_count = 0 ∧
      (mainLoopStep ls false m now).2 = false) ∧
    (∀ (ls : LinkState) (now : ℚ),
      ¬ (CRC_FAIL_THRESHOLD ≤ ls.g_crc_fail_count + 1 ∧
          CRC_RESET_COOLDOWN < now - ls.g_crc_last_reset) →
      (mainLoopStep ls false Msg.invalidCRC now).1.g_crc_fail_count
        = ls.g_crc_fail_count + 1) := by
  refine ⟨fun ls m now => by rw [mainLoopStep_success], crcMsgCheck_invalidCRC,
    crcMsgCheck_wrongStation, by decide, by decide, by decide, by decide, by decide,
    by decide, by decide, by decide, crcMsgCheck_unhandled, ?_, ?_⟩
  · intro ls m now hm
    rw [mainLoopStep]
    simp [hm, CRC_FAIL_THRESHOLD]
  · intro ls now hcond
    rw [mainLoopStep]
    simp only [Bool.false_eq_true, if_false, crcMsgCheck_invalidCRC, if_true]
    rw [if_neg hcond]

/-- C5 (counterexample): on the valid-CRC packet whose bytes contain the
ASCII characters `CRC`, a wind-speed extraction failure (not a checksum
failure) produces a message whose Python rendering contains the substring
"CRC", so the main loop increments the consecutive-CRC-failure counter. -/
theorem C5_counterexample :
    (decodeRawData Dneg specM initState pW).2.1 = false ∧
    (decodeRawData Dneg specM initState pW).2.2 ≠ Msg.invalidCRC ∧
    (mainLoopStep ⟨0, 0⟩ (decodeRawData Dneg specM initState pW).2.1
        (decodeRawData Dneg specM initState pW).2.2 100).1.g_crc_fail_count = 1 := by
  have h : decodeRawData Dneg specM initState pW
      = (setWindSpeed initState 0, false, Msg.windSpeedErr (-1) pW) := by
    rw [decodeRawData, if_neg (by decide), if_neg (by decide),
      if_pos (show Dneg.windSpeed pW < 0 by norm_num [Dneg])]
    norm_num [Dneg]
  rw [h]
  have hsub : containsCRCsub (renderBytes pW) = true := by decide
  have hcrc2 : crcMsgCheck (Msg.windSpeedErr (-1) pW) = true := by
    rw [crcMsgCheck, renderMsg]
    exact containsCRCsub_append_right _ _ hsub
  refine ⟨rfl, by simp, ?_⟩
  rw [mainLoopStep]
  simp [hcrc2, CRC_FAIL_THRESHOLD, CRC_RESET_COOLDOWN]

/-- C5 (witness for the amended theorem): a wrong-station failure fails the
substring test and resets a streak of 7, and a success resets it too. -/
theorem C5_witness :
    crcMsgCheck (Msg.wrongStation 1 5) = false ∧
    (mainLoopStep ⟨7, 0⟩ false (Msg.wrongStation 1 5) 100).1.g_crc_fail_count = 0 ∧
    (mainLoopStep ⟨7, 0⟩ true Msg.rainCountOK 100).1.g_crc_fail_count = 0 := by
  obtain ⟨h1, _, h3, _, _, _, _, _, _, _, _, _, h13, _⟩ := C5_crc_streak_classification
  exact ⟨h3 1 5, (h13 ⟨7, 0⟩ (Msg.wrongStation 1 5) 100 (h3 1 5)).1,
    h1 ⟨7, 0⟩ Msg.rainCountOK 100⟩
/-- C9: for every packet whose tag is not RainCount and which decodes
successfully, a second decode of the same packet succeeds and leaves all
instantaneous fields (wind speed/direction/gust, temperature, humidity,
solar, UV, capacitor volts, rain rate) exactly as after the first decode:
overwrite semantics, no double accumulation. -/
theorem C9_overwrite_idempotent (D : WUDecodeData) (M : WeatherCls)
    (st : DecodeState) (p : List ℕ)
    (hsucc : (decodeRawData D M st p).2.1 = true)
    (htag : nth p 0 / 16 ≠ ISS_RAIN_COUNT) :
    (decodeRawData D M (decodeRawData D M st p).1 p).2.1 = true ∧
    instFields (decodeRawData D M (decodeRawData D M st p).1 p).1
      = instFields (decodeRawData D M st p).1 := by
  by_cases h1 : D.crc16_ccitt p = false
  · rw [decodeRawData, if_pos h1] at hsucc; simp at hsucc
  by_cases h2 : D.stationID p ≠ ISS_STATION_ID
  · rw [decodeRawData, if_neg h1, if_pos h2] at hsucc; simp at hsucc
  by_cases h3 : D.windSpeed p < 0
  · rw [decodeRawData, if_neg h1, if_neg h2, if_pos h3] at hsucc; simp at hsucc
  by_cases h4 : D.windDirection p < 0
  · rw [decodeRawData, if_neg h1, if_neg h2, if_neg h3, if_pos h4] at hsucc; simp at hsucc
  have h1' : D.crc16_ccitt p = true := by revert h1; cases D.crc16_ccitt p <;> simp
  have h2' : D.stationID p = ISS_STATION_ID := not_ne_iff.mp h2
  rw [decode_gates D M st p h1' h2' h3 h4] at hsucc ⊢
  rw [decode_gates D M _ p h1' h2' h3 h4]
  by_cases t5 : nth p 0 / 16 = ISS_RAIN_SECONDS
  · have e := fun s => dispatch_rainSeconds D M s p t5
    simp only [e] at hsucc ⊢
    by_cases hs : 0 < D.rainRate p
    · by_cases hlt : D.rainRate p < 900
      · simp [rainSecondsBranch, hs, hlt, applyWind, instFields]
      · simp [rainSecondsBranch, hs, hlt, applyWind, instFields]
    · rw [rainSecondsBranch, if_neg hs] at hsucc; simp at hsucc
  by_cases t8 : nth p 0 / 16 = ISS_OUT_TEMP
  · have e := fun s => dispatch_temp D M s p t8
    simp only [e] at hsucc ⊢
    by_cases htv : -100 < D.temperature p
    · simp [tempBranch, htv, dewPointUpd, applyWind, instFields, apply_ite]
    · rw [tempBranch, if_neg htv] at hsucc; simp at hsucc
  by_cases t9 : nth p 0 / 16 = ISS_WIND_GUST
  · have e : ∀ s, dispatchData D M s p = windGustBranch D s p := by
      intro s
      rw [dispatchData, if_neg htag, if_neg t5, if_neg t8, if_pos t9]
    simp only [e] at hsucc ⊢
    by_cases hg : 0 ≤ D.windGusts p
    · simp [windGustBranch, hg, applyWind, instFields]
    · rw [windGustBranch, if_neg hg] at hsucc; simp at hsucc
  by_cases tA : nth p 0 / 16 = ISS_HUMIDITY
  · have e : ∀ s, dispatchData D M s p = humidityBranch D M s p := by
      intro s
      rw [dispatchData, if_neg htag, if_neg t5, if_neg t8, if_neg t9, if_pos tA]
    simp only [e] at hsucc ⊢
    by_cases hh : 0 < D.humidity p
    · simp [humidityBranch, hh, dewPointUpd, applyWind, instFields, apply_ite]
    · rw [humidityBranch, if_neg hh] at hsucc; simp at hsucc
  by_cases t2 : nth p 0 / 16 = ISS_CAP_VOLTS
  · have e : ∀ s, dispatchData D M s p = capVoltsBranch D s p := by
      intro s
      rw [dispatchData, if_neg htag, if_neg t5, if_neg t8, if_neg t9, if_neg tA, if_pos t2]
    simp only [e] at hsucc ⊢
    by_cases hv : 0 ≤ D.capVoltage p
    · simp [capVoltsBranch, hv, applyWind, instFields]
    · rw [capVoltsBranch, if_neg hv] at hsucc; simp at hsucc
  by_cases t6 : nth p 0 / 16 = ISS_SOLAR_RAD
  · have e : ∀ s, dispatchData D M s p = solarBranch D s p := by
      intro s
      rw [dispatchData, if_neg htag, if_neg t5, if_neg t8, if_neg t9, if_neg tA,
        if_neg t2, if_pos t6]
    simp only [e] at hsucc ⊢
    by_cases hsr : 0 ≤ D.solarRadiation p
    · simp [solarBranch, hsr, applyWind, instFields]
    · rw [solarBranch, if_neg hsr] at hsucc; simp at hsucc
  by_cases t4 : nth p 0 / 16 = ISS_UV_INDEX
  · have e : ∀ s, dispatchData D M s p = uvBranch D s p := by
      intro s
      rw [dispatchData, if_neg htag, if_neg t5, if_neg t8, if_neg t9, if_neg tA,
        if_neg t2, if_neg t6, if_pos t4]
    simp only [e] at hsucc ⊢
    by_cases hu : 0 ≤ D.uvIndex p
    · simp [uvBranch, hu, applyWind, instFields]
    · rw [uvBranch, if_neg hu] at hsucc; simp at hsucc
  rw [dispatchData, if_neg htag, if_neg t5, if_neg t8, if_neg t9, if_neg tA,
    if_neg t2, if_neg t6, if_neg t4] at hsucc
  simp at hsucc
/-- C9 (witness): decoding the temperature packet `ptemp` twice in a row
succeeds and leaves the instantaneous fields identical to one decode. -/
theorem C9_witness :
    (decodeRawData specD specM initState ptemp).2.1 = true ∧
    nth ptemp 0 / 16 ≠ ISS_RAIN_COUNT ∧
    (decodeRawData specD specM
        (decodeRawData specD specM initState ptemp).1 ptemp).2.1 = true ∧
    instFields (decodeRawData specD specM
        (decodeRawData specD specM initState ptemp).1 ptemp).1
      = instFields (decodeRawData specD specM initState ptemp).1 := by
  have ht : (-100 : ℚ) < specD.temperature ptemp := by
    show (-100 : ℚ) < ((1 * 256 + 44 : ℕ) : ℚ) / 10
    norm_num
  have hsucc : (decodeRawData specD specM initState ptemp).2.1 = true := by
    rw [decode_gates specD specM initState ptemp (by decide) (by decide)
        (specD_windSpeed_nonneg ptemp) (specD_windDirection_nonneg ptemp),
      dispatch_temp specD specM _ ptemp (by decide), tempBranch, if_pos ht]
  have h := C9_overwrite_idempotent specD specM initState ptemp hsucc (by decide)
  exact ⟨hsucc, by decide, h.1, h.2⟩
